import Mathlib

/-!
Verification of the HAMQTT library (ESP-IDF component exposing devices to
Home Assistant over MQTT).  The definitions below are a shallow embedding of
the C sources: hamqtt_device.c, hamqtt_binary_sensor.c, hamqtt_button.c and
the headers under include/HAMQTT.  Pointers that may be NULL are modelled as
Option values, esp_err_t codes as an enumerated type, the cJSON document as
an inductive JSON value whose objects keep insertion order, and the MQTT
client as a trace of publish/subscribe actions.  Heap allocation is assumed
to succeed except where a claim is about an allocation failure path.
-/

/-- EspErr models the esp_err_t codes this library actually returns:
ESP_OK, ESP_FAIL (the generic failure, -1), ESP_ERR_NO_MEM (0x101),
ESP_ERR_INVALID_ARG (0x102) and ESP_ERR_INVALID_STATE (0x103). -/
inductive EspErr where
  | ok
  | fail
  | errNoMem
  | errInvalidArg
  | errInvalidState
  deriving DecidableEq, Repr

/-- HAMQTT_DEVICE_MAX_COMPONENTS from include/HAMQTT/common.h. -/
def HAMQTT_DEVICE_MAX_COMPONENTS : Nat := 16

/-- HAMQTT_CHAR_BUF_SIZE from include/HAMQTT/common.h. -/
def HAMQTT_CHAR_BUF_SIZE : Nat := 64

/-- HAMQTT_MQTT_CONNECT_TIMEOUT_MS from include/HAMQTT/common.h. -/
def HAMQTT_MQTT_CONNECT_TIMEOUT_MS : Nat := 10000

/-- strTrunc n s is what snprintf/memcpy into an (n+1)-byte zeroed buffer
keeps of s: its first n characters (the rest is truncated). -/
def strTrunc (n : Nat) (s : String) : String :=
  String.mk (s.data.take n)

/-- Json models a cJSON value.  An object is its field list in insertion
order, as built by successive cJSON_Add*ToObject calls. -/
inductive Json where
  | str (s : String)
  | bool (b : Bool)
  | num (n : Int)
  | obj (fields : List (String × Json))

/-- Json.keys lists an object's field names in insertion order. -/
def Json.keys : Json → List String
  | .obj fs => fs.map Prod.fst
  | _ => []

/-- Json.getField looks a field up by name (cJSON_GetObjectItem). -/
def Json.getField : Json → String → Option Json
  | .obj fs, k => List.lookup k fs
  | _, _ => none

/-- optField renders an optional string configuration field: the C code
adds the JSON entry only when the pointer is non-NULL. -/
def optField (k : String) : Option String → List (String × Json)
  | some v => [(k, Json.str v)]
  | none => []

/-- HAMQTT_Device_Config from include/HAMQTT/hamqtt_device.h; each char
pointer field is an Option String (NULL = none). -/
structure HAMQTT_Device_Config where
  mqtt_config_topic_prefix : Option String
  mqtt_uri : Option String
  mqtt_username : Option String
  mqtt_password : Option String
  manufacturer : Option String
  model : Option String
  serial_number : Option String
  unique_id : Option String
  sw_version : Option String
  hw_version : Option String
  origin_url : Option String
  name : Option String
  deriving DecidableEq, Repr

/-- hamqtt_device_config_default from hamqtt_device.c. -/
def hamqtt_device_config_default : HAMQTT_Device_Config :=
  ⟨some "homeassistant", none, none, none, none, none, none, none, none,
   none, none, some "ESP32 Device"⟩

/-- HAMQTT_Binary_Sensor_Config from include/HAMQTT/hamqtt_binary_sensor.h. -/
structure HAMQTT_Binary_Sensor_Config where
  device_class : Option String
  enabled_by_default : Bool
  entity_picture : Option String
  expire_after : Int
  force_update : Bool
  icon : Option String
  name : Option String
  off_delay : Int
  unique_id : Option String
  deriving DecidableEq, Repr

/-- hamqtt_binary_sensor_config_default from hamqtt_binary_sensor.c. -/
def hamqtt_binary_sensor_config_default : HAMQTT_Binary_Sensor_Config :=
  ⟨none, true, none, -1, false, none, some "ESP32 Binary Sensor", -1, none⟩

/-- HAMQTT_Button_Config from include/HAMQTT/hamqtt_button.h. -/
structure HAMQTT_Button_Config where
  device_class : Option String
  enabled_by_default : Bool
  entity_picture : Option String
  icon : Option String
  name : Option String
  unique_id : Option String
  deriving DecidableEq, Repr

/-- hamqtt_button_config_default from hamqtt_button.c. -/
def hamqtt_button_config_default : HAMQTT_Button_Config :=
  ⟨none, true, none, none, some "ESP32 Button", none⟩

/-- struct HAMQTT_Binary_Sensor from hamqtt_binary_sensor.c.  The injected
get_state_func pointer is kept as the flag has_get_state_func (its return
values are supplied at each update call); calloc zeroes has_sent_state,
previous_state and the state_topic pointer. -/
structure HAMQTT_Binary_Sensor where
  component_config : HAMQTT_Binary_Sensor_Config
  has_get_state_func : Bool
  has_sent_state : Bool
  previous_state : Bool
  state_topic : Option String
  deriving DecidableEq, Repr

/-- struct HAMQTT_Button from hamqtt_button.c.  The on_press_func pointer
is kept as the flag has_on_press_func; calloc zeroes command_topic. -/
structure HAMQTT_Button where
  component_config : HAMQTT_Button_Config
  has_on_press_func : Bool
  command_topic : Option String
  deriving DecidableEq, Repr

/-- HAMQTT_Component: the two concrete component kinds the repository
implements behind the HAMQTT_Component_VTable. -/
inductive HAMQTT_Component where
  | binarySensor (s : HAMQTT_Binary_Sensor)
  | button (b : HAMQTT_Button)
  deriving DecidableEq, Repr

/-- hamqtt_binary_sensor_is_config_valid: name and unique_id required. -/
def hamqtt_binary_sensor_is_config_valid (sensor : HAMQTT_Binary_Sensor) : Bool :=
  sensor.component_config.name.isSome && sensor.component_config.unique_id.isSome

/-- hamqtt_button_is_config_valid: name and unique_id required. -/
def hamqtt_button_is_config_valid (button : HAMQTT_Button) : Bool :=
  button.component_config.name.isSome && button.component_config.unique_id.isSome

/-- hamqtt_device_is_config_valid: mqtt_config_topic_prefix, mqtt_uri,
unique_id and name required. -/
def hamqtt_device_is_config_valid (config : HAMQTT_Device_Config) : Bool :=
  config.mqtt_config_topic_prefix.isSome && config.mqtt_uri.isSome &&
    config.unique_id.isSome && config.name.isSome

/-- hamqtt_binary_sensor_create from hamqtt_binary_sensor.c: calloc a
sensor (allocation assumed to succeed), install the vtable and fields; when
the config misses a required field it logs an error, frees the sensor and
returns NULL. -/
def hamqtt_binary_sensor_create (config : HAMQTT_Binary_Sensor_Config)
    (has_get_state_func : Bool) : Option HAMQTT_Binary_Sensor :=
  let sensor : HAMQTT_Binary_Sensor := ⟨config, has_get_state_func, false, false, none⟩
  if hamqtt_binary_sensor_is_config_valid sensor then some sensor else none

/-- hamqtt_button_create from hamqtt_button.c: calloc a button (allocation
assumed to succeed); when the config misses a required field it logs an
error, frees the button and returns NULL. -/
def hamqtt_button_create (config : HAMQTT_Button_Config)
    (has_on_press_func : Bool) : Option HAMQTT_Button :=
  let button : HAMQTT_Button := ⟨config, has_on_press_func, none⟩
  if hamqtt_button_is_config_valid button then some button else none

/-- struct HAMQTT_Device from hamqtt_device.c.  The C component array has
HAMQTT_DEVICE_MAX_COMPONENTS slots; the list records every slot the code
writes, so a write past the last slot (an out-of-bounds store in C) shows
up as an element beyond that capacity. -/
structure HAMQTT_Device where
  device_config : HAMQTT_Device_Config
  components : List HAMQTT_Component
  component_count : Nat

/-- hamqtt_device_create from hamqtt_device.c: malloc (assumed to succeed),
zero the count; an invalid config only logs a warning, creation proceeds. -/
def hamqtt_device_create (config : HAMQTT_Device_Config) : Option HAMQTT_Device :=
  some ⟨config, [], 0⟩

/-- hamqtt_device_add_component from hamqtt_device.c: a NULL component is
ESP_ERR_INVALID_ARG; the guard the code uses is component_count less than
or equal to HAMQTT_DEVICE_MAX_COMPONENTS, and when it passes the component
is stored at index component_count and the count incremented. -/
def hamqtt_device_add_component (device : HAMQTT_Device)
    (component : Option HAMQTT_Component) : EspErr × HAMQTT_Device :=
  match component with
  | none => (.errInvalidArg, device)
  | some c =>
      if device.component_count ≤ HAMQTT_DEVICE_MAX_COMPONENTS then
        (.ok, { device with
                  components := device.components ++ [c],
                  component_count := device.component_count + 1 })
      else
        (.errNoMem, device)

/-- button_command_topic: the command topic the button derives,
device_unique_id/unique_id/press (exact-size malloc, no truncation). -/
def button_command_topic (device_unique_id unique_id : String) : String :=
  device_unique_id ++ "/" ++ unique_id ++ "/press"

/-- binary_sensor_state_topic: the state topic the sensor derives,
device_unique_id/unique_id/state (exact-size malloc, no truncation). -/
def binary_sensor_state_topic (device_unique_id unique_id : String) : String :=
  device_unique_id ++ "/" ++ unique_id ++ "/state"

/-- hamqtt_binary_sensor_get_discovery_config from hamqtt_binary_sensor.c:
fails with ESP_ERR_INVALID_STATE when the config misses required fields;
otherwise (re)derives the state topic, stores it on the sensor and returns
the per-component JSON in the order the C code adds the fields.  The
state-topic malloc is assumed to succeed. -/
def hamqtt_binary_sensor_get_discovery_config (device_unique_id : String)
    (sensor : HAMQTT_Binary_Sensor) : Except EspErr (Json × HAMQTT_Binary_Sensor) :=
  if hamqtt_binary_sensor_is_config_valid sensor then
    let uid := sensor.component_config.unique_id.getD ""
    let st := binary_sensor_state_topic device_unique_id uid
    .ok (Json.obj
      ([("p", Json.str "binary_sensor"),
        ("name", Json.str (sensor.component_config.name.getD "")),
        ("state_topic", Json.str st),
        ("unique_id", Json.str uid),
        ("enabled_by_default", Json.bool sensor.component_config.enabled_by_default),
        ("force_update", Json.bool sensor.component_config.force_update)]
        ++ optField "device_class" sensor.component_config.device_class
        ++ optField "entity_picture" sensor.component_config.entity_picture
        ++ optField "icon" sensor.component_config.icon
        ++ (if sensor.component_config.expire_after ≠ -1 then
              [("expire_after", Json.num sensor.component_config.expire_after)] else [])
        ++ (if sensor.component_config.off_delay ≠ -1 then
              [("off_delay", Json.num sensor.component_config.off_delay)] else [])),
      { sensor with state_topic := some st })
  else
    .error .errInvalidState

/-- hamqtt_button_get_discovery_config from hamqtt_button.c: fails with
ESP_ERR_INVALID_STATE when the config misses required fields; otherwise
(re)derives the command topic, stores it on the button (it becomes the sole
subscribed topic) and returns the per-component JSON.  The command-topic
malloc is assumed to succeed. -/
def hamqtt_button_get_discovery_config (device_unique_id : String)
    (button : HAMQTT_Button) : Except EspErr (Json × HAMQTT_Button) :=
  if hamqtt_button_is_config_valid button then
    let uid := button.component_config.unique_id.getD ""
    let ct := button_command_topic device_unique_id uid
    .ok (Json.obj
      ([("p", Json.str "button"),
        ("name", Json.str (button.component_config.name.getD "")),
        ("command_topic", Json.str ct),
        ("unique_id", Json.str uid),
        ("enabled_by_default", Json.bool button.component_config.enabled_by_default)]
        ++ optField "device_class" button.component_config.device_class
        ++ optField "entity_picture" button.component_config.entity_picture
        ++ optField "icon" button.component_config.icon),
      { button with command_topic := some ct })
  else
    .error .errInvalidState

/-- hamqtt_button_handle_mqtt_message from hamqtt_button.c: returns whether
the press callback is invoked.  A NULL command topic is guarded first, then
the topic and the literal payload PRESS are compared exactly; a missing
on_press_func only logs an error. -/
def hamqtt_button_handle_mqtt_message (button : HAMQTT_Button)
    (topic data : String) : Bool :=
  match button.command_topic with
  | none => false
  | some ct =>
      if topic ≠ ct then false
      else if data ≠ "PRESS" then false
      else if button.has_on_press_func then true
      else false

/-- hamqtt_binary_sensor_update from hamqtt_binary_sensor.c: the current
reading is the injected accessor's value (none when get_state_func is
NULL, in which case the call logs an error and returns).  Returns the new
sensor state and whether a publish to the state topic was issued. -/
def hamqtt_binary_sensor_update (sensor : HAMQTT_Binary_Sensor)
    (reading : Option Bool) : HAMQTT_Binary_Sensor × Bool :=
  match reading with
  | none => (sensor, false)
  | some current_state =>
      if current_state == sensor.previous_state && sensor.has_sent_state then
        (sensor, false)
      else
        ({ sensor with has_sent_state := true, previous_state := current_state }, true)

/-- hamqtt_binary_sensor_run: iterated update calls over a sequence of
accessor readings, collecting for each tick whether it published. -/
def hamqtt_binary_sensor_run (sensor : HAMQTT_Binary_Sensor) :
    List Bool → List Bool
  | [] => []
  | v :: rest =>
      let r := hamqtt_binary_sensor_update sensor (some v)
      r.2 :: hamqtt_binary_sensor_run r.1 rest

/-- binary_sensor_spec_edge_publishes describes, after the first announce,
the publish pattern the spec states: a tick publishes exactly when its
value differs from the previous one. -/
def binary_sensor_spec_edge_publishes (prev : Bool) : List Bool → List Bool
  | [] => []
  | v :: rest => (v != prev) :: binary_sensor_spec_edge_publishes v rest

/-- binary_sensor_spec_publishes: the spec's publish pattern for a fresh
sensor: the first tick always publishes, each later tick publishes exactly
when the value changed. -/
def binary_sensor_spec_publishes : List Bool → List Bool
  | [] => []
  | v :: rest => true :: binary_sensor_spec_edge_publishes v rest

/-- hamqtt_component_get_unique_id dispatch: both components return their
config's unique_id pointer. -/
def hamqtt_component_get_unique_id : HAMQTT_Component → Option String
  | .binarySensor s => s.component_config.unique_id
  | .button b => b.component_config.unique_id

/-- hamqtt_component_get_subscribed_topics dispatch: the binary sensor
reports no topics; the button always reports its single command_topic slot
(still NULL before the discovery config has derived it). -/
def hamqtt_component_get_subscribed_topics : HAMQTT_Component → List (Option String)
  | .binarySensor _ => []
  | .button b => [b.command_topic]

/-- hamqtt_component_get_discovery_config dispatch. -/
def hamqtt_component_get_discovery_config (device_unique_id : String) :
    HAMQTT_Component → Except EspErr (Json × HAMQTT_Component)
  | .binarySensor s =>
      match hamqtt_binary_sensor_get_discovery_config device_unique_id s with
      | .error e => .error e
      | .ok (j, s2) => .ok (j, .binarySensor s2)
  | .button b =>
      match hamqtt_button_get_discovery_config device_unique_id b with
      | .error e => .error e
      | .ok (j, b2) => .ok (j, .button b2)

/-- hamqtt_component_handle_mqtt_message dispatch: the binary sensor's
handler does nothing; the button's may invoke the press callback. -/
def hamqtt_component_handle_mqtt_message (c : HAMQTT_Component)
    (topic data : String) : Bool :=
  match c with
  | .binarySensor _ => false
  | .button b => hamqtt_button_handle_mqtt_message b topic data

/-- device_availability_topic: snprintf of unique_id/availability into the
device's HAMQTT_CHAR_BUF_SIZE buffer (done inside build_config). -/
def device_availability_topic (config : HAMQTT_Device_Config) : String :=
  strTrunc (HAMQTT_CHAR_BUF_SIZE - 1) ((config.unique_id.getD "") ++ "/availability")

/-- device_config_topic: snprintf of topic-prefix/device/unique_id/config
into a HAMQTT_CHAR_BUF_SIZE buffer (done inside connect). -/
def device_config_topic (config : HAMQTT_Device_Config) : String :=
  strTrunc (HAMQTT_CHAR_BUF_SIZE - 1)
    ((config.mqtt_config_topic_prefix.getD "") ++ "/device/" ++
      (config.unique_id.getD "") ++ "/config")

/-- hamqtt_device_json: the "device" object of the discovery document, in
the order hamqtt_device_build_config adds the fields. -/
def hamqtt_device_json (config : HAMQTT_Device_Config) : Json :=
  Json.obj
    ([("ids", Json.str (config.unique_id.getD "")),
      ("name", Json.str (config.name.getD ""))]
      ++ optField "mf" config.manufacturer
      ++ optField "mdl" config.model
      ++ optField "sw" config.sw_version
      ++ optField "hw" config.hw_version
      ++ optField "sn" config.serial_number)

/-- hamqtt_origin_json: the "origin" object of the discovery document. -/
def hamqtt_origin_json (config : HAMQTT_Device_Config) : Json :=
  Json.obj
    ([("name", Json.str (config.name.getD ""))]
      ++ optField "sw" config.sw_version
      ++ optField "url" config.origin_url)

/-- hamqtt_device_build_components: the loop of hamqtt_device_build_config
over the registered components in order; its first failing
get_discovery_config call aborts the build with that error.  On success it
yields the cmps entries (keyed by each component's unique id, in
registration order) and the updated components (their derived topics now
set). -/
def hamqtt_device_build_components (device_unique_id : String) :
    List HAMQTT_Component → Except EspErr (List (String × Json) × List HAMQTT_Component)
  | [] => .ok ([], [])
  | c :: rest =>
      match hamqtt_component_get_discovery_config device_unique_id c with
      | .error e => .error e
      | .ok (j, c2) =>
          match hamqtt_device_build_components device_unique_id rest with
          | .error e => .error e
          | .ok (entries, cs) =>
              .ok (((hamqtt_component_get_unique_id c2).getD "", j) :: entries, c2 :: cs)

/-- hamqtt_device_build_config from hamqtt_device.c: ESP_ERR_INVALID_STATE
when the device config misses required fields; then the availability topic
is derived, and the document is assembled with keys device, origin, cmps,
availability_topic and qos, aborting on the first component error. -/
def hamqtt_device_build_config (config : HAMQTT_Device_Config)
    (comps : List HAMQTT_Component) : Except EspErr (Json × List HAMQTT_Component) :=
  if hamqtt_device_is_config_valid config then
    match hamqtt_device_build_components (config.unique_id.getD "") comps with
    | .error e => .error e
    | .ok (entries, cs) =>
        .ok (Json.obj
          [("device", hamqtt_device_json config),
           ("origin", hamqtt_origin_json config),
           ("cmps", Json.obj entries),
           ("availability_topic", Json.str (device_availability_topic config)),
           ("qos", Json.str "1")], cs)
  else
    .error .errInvalidState

/-- MqttPayload: what a publish carries, raw text or a printed document. -/
inductive MqttPayload where
  | text (s : String)
  | json (j : Json)

/-- MqttAction: one call enqueued on the esp_mqtt client. -/
inductive MqttAction where
  | publish (topic : String) (payload : MqttPayload)
  | subscribe (topic : String)

/-- hamqtt_device_subscribe from hamqtt_device.c: one subscribe call per
declared component topic, components in registration order.  A NULL topic
entry is skipped here; after a successful build every declared topic is
non-NULL, so the skip is never taken on the connect path. -/
def hamqtt_device_subscribe_actions : List HAMQTT_Component → List MqttAction
  | [] => []
  | c :: rest =>
      (hamqtt_component_get_subscribed_topics c).filterMap
        (fun t => t.map MqttAction.subscribe)
      ++ hamqtt_device_subscribe_actions rest

/-- HAMQTT_Connect_Result: what one hamqtt_device_connect call leaves
behind: its return code, the MQTT_CONNECTED_BIT of the event group, and the
client calls enqueued during the call (by the connected-event handler and
by connect itself), in order. -/
structure HAMQTT_Connect_Result where
  err : EspErr
  connected : Bool
  actions : List MqttAction

/-- hamqtt_device_connect from hamqtt_device.c.  The environment supplies
what the black-box client does: client_start_result is what
esp_mqtt_client_start returns, client_signals_connected says whether the
broker raises the connected event within HAMQTT_MQTT_CONNECT_TIMEOUT_MS.
The build failure and the start failure propagate with nothing enqueued;
a missed connected signal returns ESP_FAIL with the bit still clear; on
the connected edge the event handler publishes the availability online
message and subscribes every component topic (in that order, on the client
task), after which connect resumes and publishes the discovery document. -/
def hamqtt_device_connect (config : HAMQTT_Device_Config)
    (comps : List HAMQTT_Component) (client_start_result : EspErr)
    (client_signals_connected : Bool) : HAMQTT_Connect_Result :=
  match hamqtt_device_build_config config comps with
  | .error e => ⟨e, false, []⟩
  | .ok (doc, comps2) =>
      if client_start_result ≠ .ok then ⟨client_start_result, false, []⟩
      else if client_signals_connected then
        ⟨.ok, true,
          MqttAction.publish (device_availability_topic config) (.text "online")
            :: hamqtt_device_subscribe_actions comps2
            ++ [MqttAction.publish (device_config_topic config) (.json doc)]⟩
      else ⟨.fail, false, []⟩

/-- hamqtt_device_route_from: the nested dispatch loops of
hamqtt_device_handle_mqtt_message, components from index idx on; every
declared topic equal to the materialized topic string triggers one
handle_message invocation, recorded as (component index, topic string,
data string). -/
def hamqtt_device_route_from (idx : Nat) (topic_str data_str : String) :
    List HAMQTT_Component → List (Nat × String × String)
  | [] => []
  | c :: rest =>
      (hamqtt_component_get_subscribed_topics c).filterMap
        (fun t => if t = some topic_str then some (idx, topic_str, data_str) else none)
      ++ hamqtt_device_route_from (idx + 1) topic_str data_str rest

/-- hamqtt_device_handle_mqtt_message from hamqtt_device.c: the raw topic
and data byte ranges are materialized into zeroed HAMQTT_CHAR_BUF_SIZE
buffers, keeping at most HAMQTT_CHAR_BUF_SIZE - 1 bytes each, then every
component's declared topics are compared by strcmp against the materialized
topic.  Returns the handle_message invocations, in order. -/
def hamqtt_device_handle_mqtt_message (comps : List HAMQTT_Component)
    (topic data : String) : List (Nat × String × String) :=
  hamqtt_device_route_from 0 (strTrunc (HAMQTT_CHAR_BUF_SIZE - 1) topic)
    (strTrunc (HAMQTT_CHAR_BUF_SIZE - 1) data) comps

/-- hamqtt_device_add_n: n successive add_component calls with the same
(non-NULL) component, collecting each call's return code. -/
def hamqtt_device_add_n (device : HAMQTT_Device) (c : HAMQTT_Component) :
    Nat → List EspErr × HAMQTT_Device
  | 0 => ([], device)
  | n + 1 =>
      let r := hamqtt_device_add_component device (some c)
      let rest := hamqtt_device_add_n r.2 c n
      (r.1 :: rest.1, rest.2)


/-- action_is_subscribe tests whether an enqueued client action is a
subscription. -/
def action_is_subscribe : MqttAction → Bool
  | .subscribe _ => true
  | _ => false

/-- action_is_publish_to tests whether an enqueued client action is a
publish to the given topic. -/
def action_is_publish_to (topic : String) : MqttAction → Bool
  | .publish t _ => t == topic
  | _ => false

/- ----- Supporting lemmas ----- -/

/-- After the first announce, a tick publishes exactly when the reading
differs from the stored previous state. -/
lemma binary_sensor_run_announced :
    ∀ (vs : List Bool) (sensor : HAMQTT_Binary_Sensor),
      sensor.has_sent_state = true →
      hamqtt_binary_sensor_run sensor vs =
        binary_sensor_spec_edge_publishes sensor.previous_state vs := by
  intro vs
  induction vs with
  | nil => intro sensor h; rfl
  | cons v rest ih =>
    intro sensor h
    by_cases hv : v = sensor.previous_state
    · have hb : (v == sensor.previous_state && sensor.has_sent_state) = true := by
        rw [h, hv]; simp
      have h1 : hamqtt_binary_sensor_update sensor (some v) = (sensor, false) := by
        simp [hamqtt_binary_sensor_update, hb]
      have hne : (v != sensor.previous_state) = false := by
        simp [hv]
      simp only [hamqtt_binary_sensor_run, h1, binary_sensor_spec_edge_publishes, hne]
      rw [ih sensor h, hv]
    · have hveq : (v == sensor.previous_state) = false := by
        simpa using hv
      have hb : (v == sensor.previous_state && sensor.has_sent_state) = false := by
        rw [hveq]; simp
      have h1 : hamqtt_binary_sensor_update sensor (some v) =
          ({ sensor with has_sent_state := true, previous_state := v }, true) := by
        simp [hamqtt_binary_sensor_update, hb]
      have hne : (v != sensor.previous_state) = true := by
        simpa using hv
      simp only [hamqtt_binary_sensor_run, h1, binary_sensor_spec_edge_publishes, hne]
      rw [ih _ rfl]

/-- C2 (amended): for every binary sensor configuration (its force_update
flag included) and every sequence of state-accessor readings, the first tick
publishes, and each later tick publishes exactly when the reading differs
from the previous one.  The force_update flag never makes the device publish
on every tick: the update routine does not read it, it is only advertised in
the discovery metadata. -/
theorem hamqtt_binary_sensor_publish_pattern :
    ∀ (config : HAMQTT_Binary_Sensor_Config) (hg : Bool) (vs : List Bool),
      hamqtt_binary_sensor_run ⟨config, hg, false, false, none⟩ vs =
        binary_sensor_spec_publishes vs := by
  intro config hg vs
  cases vs with
  | nil => rfl
  | cons v rest =>
    have h1 : hamqtt_binary_sensor_update ⟨config, hg, false, false, none⟩ (some v) =
        (⟨config, hg, true, v, none⟩, true) := by
      simp [hamqtt_binary_sensor_update]
    simp only [hamqtt_binary_sensor_run, h1, binary_sensor_spec_publishes]
    rw [binary_sensor_run_announced rest ⟨config, hg, true, v, none⟩ rfl]

/-- C2 counterexample: a sensor whose configuration sets force_update, fed
the readings [false, false], publishes on the first tick only (pattern
[true, false]); the claim as stated requires a publish on every tick
([true, true]) whenever force_update is set. -/
theorem hamqtt_binary_sensor_force_update_ignored :
    hamqtt_binary_sensor_run
        ⟨⟨none, true, none, -1, true, none, some "ESP32 Binary Sensor", -1, some "door"⟩,
         true, false, false, none⟩ [false, false] = [true, false] ∧
    (⟨none, true, none, -1, true, none, some "ESP32 Binary Sensor", -1,
        some "door"⟩ : HAMQTT_Binary_Sensor_Config).force_update = true ∧
    ([true, false] : List Bool) ≠ [true, true] := by
  refine ⟨by decide, rfl, by decide⟩

/-- C1: the claim (and the function's own documentation and log message)
says the first HAMQTT_DEVICE_MAX_COMPONENTS add_component calls succeed, the
next is rejected with the capacity error ESP_ERR_NO_MEM, and the count never
exceeds the capacity.  The guard in the code is component_count less than or
EQUAL to HAMQTT_DEVICE_MAX_COMPONENTS, so on a fresh device all of the first
capacity + 1 = 17 calls return ESP_OK and the visible count reaches 17, one
past the capacity; in C the 17th call stores through components[16], past
the end of the 16-slot array. -/
theorem hamqtt_device_add_component_capacity_overflow :
    (hamqtt_device_add_n ⟨hamqtt_device_config_default, [], 0⟩
        (HAMQTT_Component.button
          ⟨{ hamqtt_button_config_default with unique_id := some "b1" }, true, none⟩)
        (HAMQTT_DEVICE_MAX_COMPONENTS + 1)).1 =
      List.replicate (HAMQTT_DEVICE_MAX_COMPONENTS + 1) EspErr.ok ∧
    (hamqtt_device_add_n ⟨hamqtt_device_config_default, [], 0⟩
        (HAMQTT_Component.button
          ⟨{ hamqtt_button_config_default with unique_id := some "b1" }, true, none⟩)
        (HAMQTT_DEVICE_MAX_COMPONENTS + 1)).2.component_count =
      HAMQTT_DEVICE_MAX_COMPONENTS + 1 := by
  refine ⟨by decide, by decide⟩

/-- C5 (amended): device creation always returns a usable object (missing
required fields only log a warning there) and an invalid device config makes
the document build fail with ESP_ERR_INVALID_STATE; but binary-sensor and
button creation succeed exactly when name and unique_id are present — a
component config missing a required field makes create return NULL rather
than a usable object. -/
theorem hamqtt_creation_nonfatal_only_for_device :
    ∀ (dcfg : HAMQTT_Device_Config) (scfg : HAMQTT_Binary_Sensor_Config)
      (bcfg : HAMQTT_Button_Config) (hg hp : Bool) (comps : List HAMQTT_Component),
      (hamqtt_device_create dcfg).isSome = true ∧
      (hamqtt_binary_sensor_create scfg hg).isSome =
        (scfg.name.isSome && scfg.unique_id.isSome) ∧
      (hamqtt_button_create bcfg hp).isSome =
        (bcfg.name.isSome && bcfg.unique_id.isSome) ∧
      (hamqtt_device_is_config_valid dcfg = false →
        hamqtt_device_build_config dcfg comps = .error .errInvalidState) := by
  intro dcfg scfg bcfg hg hp comps
  refine ⟨rfl, ?_, ?_, ?_⟩
  · show (if (scfg.name.isSome && scfg.unique_id.isSome) = true
        then some (⟨scfg, hg, false, false, none⟩ : HAMQTT_Binary_Sensor)
        else none).isSome = (scfg.name.isSome && scfg.unique_id.isSome)
    cases hc : (scfg.name.isSome && scfg.unique_id.isSome) <;> simp [hc]
  · show (if (bcfg.name.isSome && bcfg.unique_id.isSome) = true
        then some (⟨bcfg, hp, none⟩ : HAMQTT_Button)
        else none).isSome = (bcfg.name.isSome && bcfg.unique_id.isSome)
    cases hc : (bcfg.name.isSome && bcfg.unique_id.isSome) <;> simp [hc]
  · intro h
    simp [hamqtt_device_build_config, h]

/-- C5 witness: the amended statement applied to the default device
configuration, whose mqtt_uri and unique_id are missing: creation still
succeeds while the build fails with the state error. -/
theorem hamqtt_creation_nonfatal_only_for_device_witness :
    hamqtt_device_build_config hamqtt_device_config_default [] =
      Except.error EspErr.errInvalidState ∧
    (hamqtt_device_create hamqtt_device_config_default).isSome = true := by
  have h := hamqtt_creation_nonfatal_only_for_device hamqtt_device_config_default
    hamqtt_binary_sensor_config_default hamqtt_button_config_default true true []
  exact ⟨h.2.2.2 (by decide), h.1⟩

/-- C5 counterexample: hamqtt_button_create on the default button
configuration, whose required unique_id is missing, returns NULL (none)
instead of the usable-object-with-a-warning the claim promises for every
component type. -/
theorem hamqtt_button_create_rejects_missing_fields :
    hamqtt_button_create hamqtt_button_config_default true = none ∧
    hamqtt_button_config_default.unique_id = none := ⟨rfl, rfl⟩

/-- C10: a button fresh from hamqtt_button_create has no command topic
(calloc leaves the pointer NULL until the discovery config derives it), and
handle_message on such a button is a total no-op for every topic and
payload: the NULL command topic is guarded explicitly before any string
comparison, so the press callback is never invoked. -/
theorem hamqtt_button_handle_before_discovery_noop :
    ∀ (config : HAMQTT_Button_Config) (hp : Bool) (b : HAMQTT_Button),
      hamqtt_button_create config hp = some b →
      b.command_topic = none ∧
      ∀ topic data, hamqtt_button_handle_mqtt_message b topic data = false := by
  intro config hp b h
  unfold hamqtt_button_create at h
  by_cases hv : hamqtt_button_is_config_valid ⟨config, hp, none⟩ = true
  · rw [if_pos hv] at h
    have hb : (⟨config, hp, none⟩ : HAMQTT_Button) = b := by
      exact Option.some.inj h
    subst hb
    exact ⟨rfl, fun topic data => rfl⟩
  · rw [if_neg hv] at h
    exact absurd h (by simp)

/-- C10 witness: a freshly created button with a valid configuration
ignores even the exact press message. -/
theorem hamqtt_button_handle_before_discovery_noop_witness :
    hamqtt_button_handle_mqtt_message
      ⟨{ hamqtt_button_config_default with unique_id := some "b1" }, true, none⟩
      "node1/b1/press" "PRESS" = false :=
  (hamqtt_button_handle_before_discovery_noop
    { hamqtt_button_config_default with unique_id := some "b1" } true
    ⟨{ hamqtt_button_config_default with unique_id := some "b1" }, true, none⟩ rfl).2
    "node1/b1/press" "PRESS"

/-- C6: for every button whose command topic has been derived as
device_unique_id/unique_id/press and whose press callback is installed,
handle_message invokes the callback exactly when the topic equals the
derived command topic and the payload equals the literal PRESS,
case-sensitively; every other combination is a no-op. -/
theorem hamqtt_button_press_routing :
    ∀ (b : HAMQTT_Button) (du cu : String),
      b.command_topic = some (button_command_topic du cu) →
      b.has_on_press_func = true →
      ∀ (topic data : String),
        hamqtt_button_handle_mqtt_message b topic data = true ↔
          (topic = button_command_topic du cu ∧ data = "PRESS") := by
  intro b du cu hct hp topic data
  simp only [hamqtt_button_handle_mqtt_message, hct]
  by_cases h1 : topic = button_command_topic du cu
  · by_cases h2 : data = "PRESS"
    · simp [h1, h2, hp]
    · simp [h1, h2]
  · simp [h1]

/-- C6 witness: on the derived topic node1/b1/press the payload PRESS
presses and the lowercase payload press does not. -/
theorem hamqtt_button_press_routing_witness :
    hamqtt_button_handle_mqtt_message
        ⟨{ hamqtt_button_config_default with unique_id := some "b1" }, true,
          some "node1/b1/press"⟩ "node1/b1/press" "PRESS" = true ∧
    hamqtt_button_handle_mqtt_message
        ⟨{ hamqtt_button_config_default with unique_id := some "b1" }, true,
          some "node1/b1/press"⟩ "node1/b1/press" "press" = false := by
  have h := hamqtt_button_press_routing
    ⟨{ hamqtt_button_config_default with unique_id := some "b1" }, true,
      some "node1/b1/press"⟩ "node1" "b1" rfl rfl
  constructor
  · exact (h "node1/b1/press" "PRESS").mpr ⟨rfl, rfl⟩
  · cases hcall : hamqtt_button_handle_mqtt_message
        ⟨{ hamqtt_button_config_default with unique_id := some "b1" }, true,
          some "node1/b1/press"⟩ "node1/b1/press" "press"
    · rfl
    · exact absurd ((h "node1/b1/press" "press").mp hcall) (by decide)

/-- Every discovery-config failure of a concrete component is the
missing-required-fields state error. -/
lemma hamqtt_component_get_discovery_config_error :
    ∀ (du : String) (c : HAMQTT_Component) (e : EspErr),
      hamqtt_component_get_discovery_config du c = .error e →
      e = .errInvalidState := by
  intro du c e h
  cases c with
  | binarySensor s =>
      by_cases hv : hamqtt_binary_sensor_is_config_valid s = true
      · simp [hamqtt_component_get_discovery_config,
          hamqtt_binary_sensor_get_discovery_config, hv] at h
      · simp [hamqtt_component_get_discovery_config,
          hamqtt_binary_sensor_get_discovery_config, hv] at h
        exact h.symm
  | button b =>
      by_cases hv : hamqtt_button_is_config_valid b = true
      · simp [hamqtt_component_get_discovery_config,
          hamqtt_button_get_discovery_config, hv] at h
      · simp [hamqtt_component_get_discovery_config,
          hamqtt_button_get_discovery_config, hv] at h
        exact h.symm

/-- The component loop of the build propagates some state error whenever it
fails. -/
lemma hamqtt_device_build_components_error :
    ∀ (du : String) (comps : List HAMQTT_Component) (e : EspErr),
      hamqtt_device_build_components du comps = .error e →
      e = .errInvalidState := by
  intro du comps
  induction comps with
  | nil => intro e h; exact absurd h (by simp [hamqtt_device_build_components])
  | cons c rest ih =>
      intro e h
      unfold hamqtt_device_build_components at h
      cases hd : hamqtt_component_get_discovery_config du c with
      | error e2 =>
          rw [hd] at h
          simp at h
          rw [← h]
          exact hamqtt_component_get_discovery_config_error du c e2 hd
      | ok p =>
          rw [hd] at h
          obtain ⟨j, c2⟩ := p
          cases hr : hamqtt_device_build_components du rest with
          | error e3 =>
              rw [hr] at h
              simp at h
              rw [← h]
              exact ih e3 hr
          | ok q =>
              rw [hr] at h
              obtain ⟨entries, cs⟩ := q
              simp at h

/-- A failing build always fails with the state error. -/
lemma hamqtt_device_build_config_error :
    ∀ (config : HAMQTT_Device_Config) (comps : List HAMQTT_Component) (e : EspErr),
      hamqtt_device_build_config config comps = .error e →
      e = .errInvalidState := by
  intro config comps e h
  by_cases hv : hamqtt_device_is_config_valid config = true
  · unfold hamqtt_device_build_config at h
    rw [if_pos hv] at h
    cases hb : hamqtt_device_build_components (config.unique_id.getD "") comps with
    | error e2 =>
        rw [hb] at h
        simp at h
        rw [← h]
        exact hamqtt_device_build_components_error _ comps e2 hb
    | ok p =>
        rw [hb] at h
        obtain ⟨entries, cs⟩ := p
        simp at h
  · unfold hamqtt_device_build_config at h
    rw [if_neg hv] at h
    simp at h
    exact h.symm

/-- A successful discovery call leaves the component's unique id unchanged
(only derived topic strings are updated). -/
lemma hamqtt_component_discovery_preserves_uid :
    ∀ (du : String) (c : HAMQTT_Component) (j : Json) (c2 : HAMQTT_Component),
      hamqtt_component_get_discovery_config du c = .ok (j, c2) →
      hamqtt_component_get_unique_id c2 = hamqtt_component_get_unique_id c := by
  intro du c j c2 h
  cases c with
  | binarySensor s =>
      by_cases hv : hamqtt_binary_sensor_is_config_valid s = true
      · simp [hamqtt_component_get_discovery_config,
          hamqtt_binary_sensor_get_discovery_config, hv] at h
        rw [← h.2]
        rfl
      · simp [hamqtt_component_get_discovery_config,
          hamqtt_binary_sensor_get_discovery_config, hv] at h
  | button b =>
      by_cases hv : hamqtt_button_is_config_valid b = true
      · simp [hamqtt_component_get_discovery_config,
          hamqtt_button_get_discovery_config, hv] at h
        rw [← h.2]
        rfl
      · simp [hamqtt_component_get_discovery_config,
          hamqtt_button_get_discovery_config, hv] at h

/-- When every component's discovery call succeeds, the component loop
succeeds and its entries are keyed by the components' unique ids in
registration order. -/
lemma hamqtt_device_build_components_ok :
    ∀ (du : String) (comps : List HAMQTT_Component),
      (∀ c ∈ comps, (hamqtt_component_get_discovery_config du c).isOk = true) →
      ∃ entries cs,
        hamqtt_device_build_components du comps = .ok (entries, cs) ∧
        entries.map Prod.fst =
          comps.map (fun c => (hamqtt_component_get_unique_id c).getD "") := by
  intro du comps
  induction comps with
  | nil => intro h; exact ⟨[], [], rfl, rfl⟩
  | cons c rest ih =>
      intro h
      cases hd : hamqtt_component_get_discovery_config du c with
      | error e =>
          have := h c (List.mem_cons_self c rest)
          rw [hd] at this
          exact absurd this (by simp [Except.isOk, Except.toBool])
      | ok p =>
          obtain ⟨j, c2⟩ := p
          obtain ⟨entries, cs, hbc, hkeys⟩ :=
            ih (fun x hx => h x (List.mem_cons_of_mem c hx))
          refine ⟨((hamqtt_component_get_unique_id c2).getD "", j) :: entries,
            c2 :: cs, ?_, ?_⟩
          · unfold hamqtt_device_build_components
            rw [hd, hbc]
          · simp only [List.map_cons, hkeys,
              hamqtt_component_discovery_preserves_uid du c j c2 hd]

/-- The component loop aborts with the first failing component's error. -/
lemma hamqtt_device_build_components_first_error :
    ∀ (du : String) (pre : List HAMQTT_Component) (c : HAMQTT_Component)
      (post : List HAMQTT_Component) (e : EspErr),
      (∀ x ∈ pre, (hamqtt_component_get_discovery_config du x).isOk = true) →
      hamqtt_component_get_discovery_config du c = .error e →
      hamqtt_device_build_components du (pre ++ c :: post) = .error e := by
  intro du pre
  induction pre with
  | nil =>
      intro c post e _ hc
      show hamqtt_device_build_components du (c :: post) = .error e
      unfold hamqtt_device_build_components
      rw [hc]
  | cons p rest ih =>
      intro c post e h hc
      have hp := h p (List.mem_cons_self p rest)
      cases hd : hamqtt_component_get_discovery_config du p with
      | error e2 =>
          rw [hd] at hp
          exact absurd hp (by simp [Except.isOk, Except.toBool])
      | ok q =>
          obtain ⟨j, c2⟩ := q
          show hamqtt_device_build_components du (p :: (rest ++ c :: post)) = .error e
          unfold hamqtt_device_build_components
          rw [hd, ih c post e (fun x hx => h x (List.mem_cons_of_mem p hx)) hc]

/-- C3 (amended): when the build succeeds and the bus client never
signals connected within the configured timeout, connect returns ESP_FAIL —
the generic failure code, not a dedicated timeout code — and the connected
state remains false with nothing enqueued.  ESP_FAIL is still
distinguishable from BuildFailed (ESP_ERR_INVALID_STATE) and NoMemory
(ESP_ERR_NO_MEM). -/
theorem hamqtt_device_connect_timeout_behavior :
    ∀ (config : HAMQTT_Device_Config) (comps : List HAMQTT_Component),
      (hamqtt_device_build_config config comps).isOk = true →
      hamqtt_device_connect config comps .ok false = ⟨EspErr.fail, false, []⟩ ∧
      EspErr.fail ≠ EspErr.errInvalidState ∧ EspErr.fail ≠ EspErr.errNoMem := by
  intro config comps h
  refine ⟨?_, by decide, by decide⟩
  cases hb : hamqtt_device_build_config config comps with
  | error e =>
      rw [hb] at h
      exact absurd h (by simp [Except.isOk, Except.toBool])
  | ok p =>
      obtain ⟨doc, cs⟩ := p
      simp [hamqtt_device_connect, hb]

/-- C3 witness: the timeout behavior evaluated on a concrete valid
device with no components. -/
theorem hamqtt_device_connect_timeout_behavior_witness :
    hamqtt_device_connect
        { hamqtt_device_config_default with
            mqtt_uri := some "mqtt://broker", unique_id := some "node1" } []
        .ok false = ⟨EspErr.fail, false, []⟩ :=
  (hamqtt_device_connect_timeout_behavior
    { hamqtt_device_config_default with
        mqtt_uri := some "mqtt://broker", unique_id := some "node1" } [] rfl).1

/-- C3 counterexample: on a concrete valid device whose client never
signals connected, connect returns EspErr.fail — the very ESP_FAIL code a
generic failure returns — while the claim requires a timeout error distinct
from a generic failure. -/
theorem hamqtt_device_connect_timeout_is_generic_fail :
    (hamqtt_device_connect
        { hamqtt_device_config_default with
            mqtt_uri := some "mqtt://host", unique_id := some "nodeA" } []
        .ok false).err = EspErr.fail := rfl

/-- C8: building the discovery document fails with the first error met —
ESP_ERR_INVALID_STATE when the device config misses required fields, or the
propagated error of the first component whose discovery call fails — and
every failing build makes connect return that error with nothing enqueued,
so no partial document is ever published. -/
theorem hamqtt_device_build_fail_fast :
    (∀ (config : HAMQTT_Device_Config) (comps : List HAMQTT_Component),
        hamqtt_device_is_config_valid config = false →
        hamqtt_device_build_config config comps = .error .errInvalidState) ∧
    (∀ (config : HAMQTT_Device_Config) (pre : List HAMQTT_Component)
        (c : HAMQTT_Component) (post : List HAMQTT_Component) (e : EspErr),
        hamqtt_device_is_config_valid config = true →
        (∀ x ∈ pre, (hamqtt_component_get_discovery_config
            (config.unique_id.getD "") x).isOk = true) →
        hamqtt_component_get_discovery_config (config.unique_id.getD "") c = .error e →
        hamqtt_device_build_config config (pre ++ c :: post) = .error e) ∧
    (∀ (config : HAMQTT_Device_Config) (comps : List HAMQTT_Component) (e : EspErr),
        hamqtt_device_build_config config comps = .error e →
        ∀ (sr : EspErr) (conn : Bool),
          hamqtt_device_connect config comps sr conn = ⟨e, false, []⟩) := by
  refine ⟨?_, ?_, ?_⟩
  · intro config comps h
    simp [hamqtt_device_build_config, h]
  · intro config pre c post e hv hpre hc
    unfold hamqtt_device_build_config
    rw [if_pos hv,
      hamqtt_device_build_components_first_error _ pre c post e hpre hc]
  · intro config comps e h sr conn
    simp [hamqtt_device_connect, h]

/-- C8 witness: a valid device holding one binary sensor whose required
unique_id is missing: the build propagates the state error of that first
failing component and the corresponding connect enqueues nothing. -/
theorem hamqtt_device_build_fail_fast_witness :
    hamqtt_device_build_config
        { hamqtt_device_config_default with
            mqtt_uri := some "mqtt://broker", unique_id := some "node1" }
        [HAMQTT_Component.binarySensor
          ⟨hamqtt_binary_sensor_config_default, true, false, false, none⟩] =
      .error .errInvalidState ∧
    hamqtt_device_connect
        { hamqtt_device_config_default with
            mqtt_uri := some "mqtt://broker", unique_id := some "node1" }
        [HAMQTT_Component.binarySensor
          ⟨hamqtt_binary_sensor_config_default, true, false, false, none⟩]
        .ok true = ⟨.errInvalidState, false, []⟩ := by
  have hbuild := hamqtt_device_build_fail_fast.2.1
    { hamqtt_device_config_default with
        mqtt_uri := some "mqtt://broker", unique_id := some "node1" }
    [] (HAMQTT_Component.binarySensor
      ⟨hamqtt_binary_sensor_config_default, true, false, false, none⟩)
    [] .errInvalidState (by decide) (by simp) rfl
  exact ⟨hbuild, hamqtt_device_build_fail_fast.2.2 _ _ _ hbuild .ok true⟩

/-- C4 (amended): on every successful connect, the availability online
publish is the first enqueued action, so it precedes every subscription;
and every subscription strictly precedes the discovery-document
publication to the config topic — the reverse of the claimed
discovery-before-subscription order: the connected-event handler publishes
availability and subscribes before the blocked connect call resumes and
publishes the document. -/
theorem hamqtt_device_connect_ordering :
    ∀ (config : HAMQTT_Device_Config) (comps : List HAMQTT_Component)
      (sr : EspErr) (conn : Bool),
      (hamqtt_device_connect config comps sr conn).err = EspErr.ok →
      ((hamqtt_device_connect config comps sr conn).actions[0]? =
        some (MqttAction.publish (device_availability_topic config)
          (MqttPayload.text "online"))) ∧
      (∀ (i : Nat) (t : String),
        (hamqtt_device_connect config comps sr conn).actions[i]? =
          some (MqttAction.subscribe t) →
        0 < i ∧
        ∃ (j : Nat) (pl : MqttPayload), i < j ∧
          (hamqtt_device_connect config comps sr conn).actions[j]? =
            some (MqttAction.publish (device_config_topic config) pl)) := by
  intro config comps sr conn herr
  cases hb : hamqtt_device_build_config config comps with
  | error e =>
      exfalso
      have hcon : hamqtt_device_connect config comps sr conn = ⟨e, false, []⟩ := by
        simp [hamqtt_device_connect, hb]
      rw [hcon] at herr
      have he : e = EspErr.ok := herr
      have hstate := hamqtt_device_build_config_error config comps e hb
      rw [he] at hstate
      exact absurd hstate (by decide)
  | ok p =>
      obtain ⟨doc, cs⟩ := p
      by_cases hsr : sr = EspErr.ok
      · subst hsr
        by_cases hc : conn = true
        · subst hc
          have hcon : hamqtt_device_connect config comps EspErr.ok true =
              ⟨EspErr.ok, true,
                MqttAction.publish (device_availability_topic config)
                    (MqttPayload.text "online")
                  :: hamqtt_device_subscribe_actions cs
                  ++ [MqttAction.publish (device_config_topic config)
                        (MqttPayload.json doc)]⟩ := by
            simp [hamqtt_device_connect, hb]
          rw [hcon]
          refine ⟨by simp, ?_⟩
          intro i t hi
          match i with
          | 0 => exact absurd hi (by simp)
          | Nat.succ k =>
              refine ⟨Nat.succ_pos k, ?_⟩
              have hk : (hamqtt_device_subscribe_actions cs ++
                  [MqttAction.publish (device_config_topic config)
                    (MqttPayload.json doc)])[k]? =
                  some (MqttAction.subscribe t) := by
                simpa using hi
              have hlen : k < (hamqtt_device_subscribe_actions cs).length := by
                by_contra hnk
                push_neg at hnk
                rw [List.getElem?_append_right hnk] at hk
                cases hkl : k - (hamqtt_device_subscribe_actions cs).length with
                | zero => rw [hkl] at hk; simp at hk
                | succ m => rw [hkl] at hk; simp at hk
              refine ⟨(hamqtt_device_subscribe_actions cs).length + 1,
                MqttPayload.json doc, by omega, ?_⟩
              have hconc := List.getElem?_concat_length
                (MqttAction.publish (device_availability_topic config)
                    (MqttPayload.text "online")
                  :: hamqtt_device_subscribe_actions cs)
                (MqttAction.publish (device_config_topic config)
                  (MqttPayload.json doc))
              rw [List.length_cons] at hconc
              exact hconc
        · exfalso
          have hcf : conn = false := by
            cases conn
            · rfl
            · exact absurd rfl hc
          subst hcf
          have hcon : hamqtt_device_connect config comps EspErr.ok false =
              ⟨EspErr.fail, false, []⟩ := by
            simp [hamqtt_device_connect, hb]
          rw [hcon] at herr
          have hfail : EspErr.fail = EspErr.ok := herr
          exact absurd hfail (by decide)
      · exfalso
        have hcon : hamqtt_device_connect config comps sr conn = ⟨sr, false, []⟩ := by
          simp [hamqtt_device_connect, hb, hsr]
        rw [hcon] at herr
        have hs : sr = EspErr.ok := herr
        exact absurd hs hsr


/-- C4 counterexample: a concrete successful connect with one button
enqueues exactly [availability publish, subscribe, discovery publish]: the
subscription (index 1) precedes the discovery-document publish (index 2)
while the claim requires the discovery publication to be enqueued before
re-subscription. -/
theorem hamqtt_device_connect_config_published_after_subscribe :
    (hamqtt_device_connect
        { hamqtt_device_config_default with
            mqtt_uri := some "mqtt://broker", unique_id := some "node1" }
        [HAMQTT_Component.button
          ⟨{ hamqtt_button_config_default with unique_id := some "b1" }, true, none⟩]
        .ok true).err = EspErr.ok ∧
    ((hamqtt_device_connect
        { hamqtt_device_config_default with
            mqtt_uri := some "mqtt://broker", unique_id := some "node1" }
        [HAMQTT_Component.button
          ⟨{ hamqtt_button_config_default with unique_id := some "b1" }, true, none⟩]
        .ok true).actions.map action_is_subscribe) = [false, true, false] ∧
    ((hamqtt_device_connect
        { hamqtt_device_config_default with
            mqtt_uri := some "mqtt://broker", unique_id := some "node1" }
        [HAMQTT_Component.button
          ⟨{ hamqtt_button_config_default with unique_id := some "b1" }, true, none⟩]
        .ok true).actions.map
          (action_is_publish_to "homeassistant/device/node1/config")) =
      [false, false, true] := by
  refine ⟨rfl, by decide, by decide⟩

/-- C4 witness: the ordering theorem applied to a concrete successful
connect. -/
theorem hamqtt_device_connect_ordering_witness :
    (hamqtt_device_connect
        { hamqtt_device_config_default with
            mqtt_uri := some "mqtt://broker", unique_id := some "nodeW" }
        [HAMQTT_Component.button
          ⟨{ hamqtt_button_config_default with unique_id := some "bw" }, true, none⟩]
        .ok true).actions[0]? =
      some (MqttAction.publish
        (device_availability_topic
          { hamqtt_device_config_default with
              mqtt_uri := some "mqtt://broker", unique_id := some "nodeW" })
        (MqttPayload.text "online")) :=
  (hamqtt_device_connect_ordering
    { hamqtt_device_config_default with
        mqtt_uri := some "mqtt://broker", unique_id := some "nodeW" }
    [HAMQTT_Component.button
      ⟨{ hamqtt_button_config_default with unique_id := some "bw" }, true, none⟩]
    .ok true rfl).1

/-- C7: for a valid device configuration and registered components whose
discovery calls all succeed, the built discovery document has exactly the
top-level keys device, origin, cmps, availability_topic and qos, and cmps
holds exactly one entry per registered component, keyed by that
component's unique id, in registration order. -/
theorem hamqtt_device_build_config_document_shape :
    ∀ (config : HAMQTT_Device_Config) (comps : List HAMQTT_Component),
      hamqtt_device_is_config_valid config = true →
      (∀ c ∈ comps, (hamqtt_component_get_discovery_config
          (config.unique_id.getD "") c).isOk = true) →
      ∃ doc cs,
        hamqtt_device_build_config config comps = .ok (doc, cs) ∧
        Json.keys doc = ["device", "origin", "cmps", "availability_topic", "qos"] ∧
        (Json.getField doc "cmps").map Json.keys =
          some (comps.map (fun c => (hamqtt_component_get_unique_id c).getD "")) := by
  intro config comps hv hall
  obtain ⟨entries, cs, hbc, hkeys⟩ :=
    hamqtt_device_build_components_ok (config.unique_id.getD "") comps hall
  refine ⟨Json.obj
      [("device", hamqtt_device_json config),
       ("origin", hamqtt_origin_json config),
       ("cmps", Json.obj entries),
       ("availability_topic", Json.str (device_availability_topic config)),
       ("qos", Json.str "1")], cs, ?_, rfl, ?_⟩
  · unfold hamqtt_device_build_config
    rw [if_pos hv, hbc]
  · have hget : Json.getField (Json.obj
        [("device", hamqtt_device_json config),
         ("origin", hamqtt_origin_json config),
         ("cmps", Json.obj entries),
         ("availability_topic", Json.str (device_availability_topic config)),
         ("qos", Json.str "1")]) "cmps" = some (Json.obj entries) := rfl
    rw [hget]
    show some (Json.keys (Json.obj entries)) =
      some (comps.map (fun c => (hamqtt_component_get_unique_id c).getD ""))
    rw [show Json.keys (Json.obj entries) = entries.map Prod.fst from rfl, hkeys]

/-- C7 witness: a concrete device with a binary sensor door and a button
b1 builds a document whose cmps keys are [door, b1]. -/
theorem hamqtt_device_build_config_document_shape_witness :
    hamqtt_device_is_config_valid
      { hamqtt_device_config_default with
          mqtt_uri := some "mqtt://broker", unique_id := some "node1" } = true ∧
    ∃ doc cs,
      hamqtt_device_build_config
          { hamqtt_device_config_default with
              mqtt_uri := some "mqtt://broker", unique_id := some "node1" }
          [HAMQTT_Component.binarySensor
            ⟨{ hamqtt_binary_sensor_config_default with unique_id := some "door" },
              true, false, false, none⟩,
           HAMQTT_Component.button
            ⟨{ hamqtt_button_config_default with unique_id := some "b1" }, true, none⟩] =
        .ok (doc, cs) ∧
      Json.keys doc = ["device", "origin", "cmps", "availability_topic", "qos"] ∧
      (Json.getField doc "cmps").map Json.keys = some ["door", "b1"] := by
  refine ⟨by decide, ?_⟩
  have h := hamqtt_device_build_config_document_shape
    { hamqtt_device_config_default with
        mqtt_uri := some "mqtt://broker", unique_id := some "node1" }
    [HAMQTT_Component.binarySensor
      ⟨{ hamqtt_binary_sensor_config_default with unique_id := some "door" },
        true, false, false, none⟩,
     HAMQTT_Component.button
      ⟨{ hamqtt_button_config_default with unique_id := some "b1" }, true, none⟩]
    (by decide) (by decide)
  obtain ⟨doc, cs, h1, h2, h3⟩ := h
  exact ⟨doc, cs, h1, h2, h3⟩

/-- Membership in the router's invocation list, with explicit indices. -/
lemma hamqtt_device_route_from_mem :
    ∀ (comps : List HAMQTT_Component) (idx : Nat) (ts ds : String)
      (p : Nat × String × String),
      p ∈ hamqtt_device_route_from idx ts ds comps ↔
        ∃ k c, comps[k]? = some c ∧ p = (idx + k, ts, ds) ∧
          some ts ∈ hamqtt_component_get_subscribed_topics c := by
  intro comps
  induction comps with
  | nil =>
      intro idx ts ds p
      simp [hamqtt_device_route_from]
  | cons c rest ih =>
      intro idx ts ds p
      rw [hamqtt_device_route_from, List.mem_append]
      constructor
      · intro h
        cases h with
        | inl h1 =>
            obtain ⟨topt, hmem, hf⟩ := List.mem_filterMap.mp h1
            by_cases hteq : topt = some ts
            · rw [if_pos hteq] at hf
              have hp : p = (idx, ts, ds) := (Option.some.inj hf).symm
              refine ⟨0, c, by simp, by rw [hp]; simp, ?_⟩
              rw [← hteq]
              exact hmem
            · rw [if_neg hteq] at hf
              exact absurd hf (by simp)
        | inr h2 =>
            obtain ⟨k, c2, hk, hp, hmem⟩ := (ih (idx + 1) ts ds p).mp h2
            refine ⟨k + 1, c2, by simpa using hk, ?_, hmem⟩
            rw [hp]
            have harith : idx + 1 + k = idx + (k + 1) := by omega
            rw [harith]
      · rintro ⟨k, c2, hk, hp, hmem⟩
        cases k with
        | zero =>
            left
            have hc2 : c = c2 := by simpa using hk
            subst hc2
            refine List.mem_filterMap.mpr ⟨some ts, hmem, ?_⟩
            rw [if_pos rfl, hp]
            simp
        | succ m =>
            right
            refine (ih (idx + 1) ts ds p).mpr ⟨m, c2, by simpa using hk, ?_, hmem⟩
            rw [hp]
            have harith : idx + (m + 1) = idx + 1 + m := by omega
            rw [harith]

/-- C9: an inbound message's raw topic and payload are materialized
truncated to HAMQTT_CHAR_BUF_SIZE - 1 characters, and the router invokes
handle_message exactly on those component indices that declare a subscribed
topic equal to the materialized topic — every matching component, with the
materialized payload — while a message matching no declared topic produces
an empty invocation list. -/
theorem hamqtt_device_router_characterization :
    ∀ (comps : List HAMQTT_Component) (topic data : String) (i : Nat) (t d : String),
      (((i, t, d) ∈ hamqtt_device_handle_mqtt_message comps topic data) ↔
        (t = strTrunc (HAMQTT_CHAR_BUF_SIZE - 1) topic ∧
         d = strTrunc (HAMQTT_CHAR_BUF_SIZE - 1) data ∧
         ∃ c, comps[i]? = some c ∧
           some (strTrunc (HAMQTT_CHAR_BUF_SIZE - 1) topic) ∈
             hamqtt_component_get_subscribed_topics c)) ∧
      ((∀ c ∈ comps,
          some (strTrunc (HAMQTT_CHAR_BUF_SIZE - 1) topic) ∉
            hamqtt_component_get_subscribed_topics c) →
        hamqtt_device_handle_mqtt_message comps topic data = []) := by
  intro comps topic data i t d
  constructor
  · unfold hamqtt_device_handle_mqtt_message
    rw [hamqtt_device_route_from_mem comps 0 _ _ (i, t, d)]
    constructor
    · rintro ⟨k, c, hk, hp, hmem⟩
      rw [Prod.ext_iff, Prod.ext_iff] at hp
      obtain ⟨hik, ht, hd⟩ := hp
      simp only [] at hik ht hd
      have hki : k = i := by omega
      subst hki
      exact ⟨ht, hd, c, hk, hmem⟩
    · rintro ⟨ht, hd, c, hc, hmem⟩
      refine ⟨i, c, hc, ?_, hmem⟩
      rw [ht, hd]
      simp
  · intro hnone
    unfold hamqtt_device_handle_mqtt_message
    rw [List.eq_nil_iff_forall_not_mem]
    intro p hp
    obtain ⟨k, c, hk, _, hmem⟩ :=
      (hamqtt_device_route_from_mem comps 0 _ _ p).mp hp
    exact hnone c (List.getElem?_mem hk) hmem

/-- C9 witness: a device with one button subscribed to node1/b1/press
routes the exact message to component 0 and drops a message on another
topic. -/
theorem hamqtt_device_router_characterization_witness :
    ((0, "node1/b1/press", "PRESS") ∈
      hamqtt_device_handle_mqtt_message
        [HAMQTT_Component.button
          ⟨{ hamqtt_button_config_default with unique_id := some "b1" }, true,
            some "node1/b1/press"⟩]
        "node1/b1/press" "PRESS") ∧
    hamqtt_device_handle_mqtt_message
        [HAMQTT_Component.button
          ⟨{ hamqtt_button_config_default with unique_id := some "b1" }, true,
            some "node1/b1/press"⟩]
        "node1/other" "PRESS" = [] := by
  constructor
  · exact (hamqtt_device_router_characterization
      [HAMQTT_Component.button
        ⟨{ hamqtt_button_config_default with unique_id := some "b1" }, true,
          some "node1/b1/press"⟩]
      "node1/b1/press" "PRESS" 0 "node1/b1/press" "PRESS").1.mpr
      ⟨by decide, by decide,
       HAMQTT_Component.button
        ⟨{ hamqtt_button_config_default with unique_id := some "b1" }, true,
          some "node1/b1/press"⟩, by decide, by decide⟩
  · exact (hamqtt_device_router_characterization
      [HAMQTT_Component.button
        ⟨{ hamqtt_button_config_default with unique_id := some "b1" }, true,
          some "node1/b1/press"⟩]
      "node1/other" "PRESS" 0 "node1/other" "PRESS").2 (by decide)
